import Mathlib

/-! PicoClaw: the HTTP-compatible provider (Compat Adapter)

A shallow embedding of `pkg/providers/http_provider.go`: the adapter that
exposes the agent-facing `Chat` contract and translates the agent's
`Message` / `ToolDefinition` / `ToolCall` shapes to and from the shapes of
the `openai_compat` package (the Wire Codec).

Modelling conventions
* a Go slice is modelled by the list of its elements (a nil slice and an empty
  slice are both the empty list);
* a Go pointer `*T` is modelled by `Option T`, `nil` being `none`;
* a Go `map[string]interface{}` is modelled by an association list from keys
  to dynamically typed values, read with `GoMap.get`;
* a Go result pair `(*T, error)` is modelled by `Option T × Option GoError`;
* a `for _, x := range xs { out = append(out, f x) }` loop is modelled by a
  left fold that appends at the end of the accumulator;
* a field named `Type` in the source is named `Type_`, `Type` being reserved;
* the call of the delegate is an effect: `HTTPProvider.Chat` threads the log of
  delegate invocations explicitly.
-/

namespace PicoClaw

/-! ## Dynamically typed values and maps -/

/-- Modelled from the spec: the values a Go `interface{}` holds in an options
bag, a JSON-schema parameter spec or a parsed argument mapping. This layer only
copies them. -/
inductive Value where
  | null
  | bool (b : Bool)
  | int (n : Int)
  | float (q : Rat)
  | str (s : String)
  | array (xs : List Value)
  | object (fields : List (String × Value))

/-- Go `map[string]interface{}`. -/
abbrev GoMap := List (String × Value)

/-- Map read `m[key]`: the value stored under `key`, `none` when the key is
absent (Go yields the nil interface value then). -/
def GoMap.get (m : GoMap) (key : String) : Option Value :=
  List.lookup key m

/-- Go `error` values, identified by their message. -/
structure GoError where
  msg : String
  deriving DecidableEq

/-- Go `context.Context`; the adapter hands it to the delegate untouched. -/
structure Context where
  token : Nat
  deriving DecidableEq

/-! ## The normalized data model (package `providers`) -/

/-- Modelled from the spec: `providers.FunctionCall`, whose declaration is not
in `http_provider.go`; the fields are those the adapter reads and writes. The
arguments are the JSON-encoded string of the wire format. -/
structure FunctionCall where
  Name : String
  Arguments : String

/-- Modelled from the spec: `providers.ToolCall`, whose declaration is not in
`http_provider.go`; the fields are those the adapter reads and writes. -/
structure ToolCall where
  ID : String
  Type_ : String
  Function : Option FunctionCall
  Name : String
  Arguments : GoMap

/-- Modelled from the spec: `providers.Message`, one turn of a conversation. -/
structure Message where
  Role : String
  Content : String
  ToolCalls : List ToolCall
  ToolCallID : String

/-- Modelled from the spec: `providers.ToolFunctionDefinition`. -/
structure ToolFunctionDefinition where
  Name : String
  Description : String
  Parameters : GoMap

/-- Modelled from the spec: `providers.ToolDefinition`, a callable tool exposed
to the model. -/
structure ToolDefinition where
  Type_ : String
  Function : ToolFunctionDefinition

/-- Modelled from the spec: `providers.UsageInfo`, token accounting. -/
structure UsageInfo where
  PromptTokens : Int
  CompletionTokens : Int
  TotalTokens : Int

/-- Modelled from the spec: `providers.LLMResponse`, the result of one chat
request. -/
structure LLMResponse where
  Content : String
  ToolCalls : List ToolCall
  FinishReason : String
  Usage : Option UsageInfo

/-- The Go zero value `LLMResponse{}`. -/
def LLMResponse.zero : LLMResponse :=
  { Content := "", ToolCalls := [], FinishReason := "", Usage := none }

/-! ## The codec's data model (package `openai_compat`) -/

namespace openai_compat

/-- Modelled from the spec: `openai_compat.FunctionCall`. -/
structure FunctionCall where
  Name : String
  Arguments : String

/-- Modelled from the spec: `openai_compat.ToolCall`. -/
structure ToolCall where
  ID : String
  Type_ : String
  Function : Option FunctionCall
  Name : String
  Arguments : GoMap

/-- Modelled from the spec: `openai_compat.Message`. -/
structure Message where
  Role : String
  Content : String
  ToolCalls : List ToolCall
  ToolCallID : String

/-- Modelled from the spec: `openai_compat.ToolFunctionDefinition`. -/
structure ToolFunctionDefinition where
  Name : String
  Description : String
  Parameters : GoMap

/-- Modelled from the spec: `openai_compat.ToolDefinition`. -/
structure ToolDefinition where
  Type_ : String
  Function : ToolFunctionDefinition

/-- Modelled from the spec: `openai_compat.UsageInfo`. -/
structure UsageInfo where
  PromptTokens : Int
  CompletionTokens : Int
  TotalTokens : Int

/-- Modelled from the spec: `openai_compat.LLMResponse`. -/
structure LLMResponse where
  Content : String
  ToolCalls : List ToolCall
  FinishReason : String
  Usage : Option UsageInfo

/-- The arguments of one invocation of `openai_compat.Provider.Chat`. -/
structure ChatCall where
  ctx : Context
  messages : List Message
  tools : List ToolDefinition
  model : String
  options : GoMap

end openai_compat

/-! ## The adapter -/

/-- Modelled from the spec: `HTTPProvider` holds a delegate
`*openai_compat.Provider` whose `Chat` method is not in `http_provider.go`; the
delegate is represented by the behaviour of that method, a result pair for
every invocation. -/
structure HTTPProvider where
  delegate : openai_compat.ChatCall → Option openai_compat.LLMResponse × Option GoError

/-- Conversion of one tool call, the loop body of `toOpenAICompatToolCalls`. -/
def toOpenAICompatToolCall (tc : ToolCall) : openai_compat.ToolCall :=
  let fn : Option openai_compat.FunctionCall :=
    match tc.Function with
    | some f => some { Name := f.Name, Arguments := f.Arguments }
    | none => none
  { ID := tc.ID, Type_ := tc.Type_, Function := fn, Name := tc.Name, Arguments := tc.Arguments }

/-- Source `toOpenAICompatToolCalls`. -/
def toOpenAICompatToolCalls (toolCalls : List ToolCall) : List openai_compat.ToolCall :=
  toolCalls.foldl (fun out tc => out ++ [toOpenAICompatToolCall tc]) []

/-- Source `toOpenAICompatMessages`. -/
def toOpenAICompatMessages (messages : List Message) : List openai_compat.Message :=
  messages.foldl
    (fun out msg => out ++ [{ Role := msg.Role
                              Content := msg.Content
                              ToolCalls := toOpenAICompatToolCalls msg.ToolCalls
                              ToolCallID := msg.ToolCallID }])
    []

/-- Source `toOpenAICompatTools`. -/
def toOpenAICompatTools (tools : List ToolDefinition) : List openai_compat.ToolDefinition :=
  tools.foldl
    (fun out t => out ++ [{ Type_ := t.Type_
                            Function := { Name := t.Function.Name
                                          Description := t.Function.Description
                                          Parameters := t.Function.Parameters } }])
    []

/-- Conversion of one tool call, the loop body of `fromOpenAICompatToolCalls`. -/
def fromOpenAICompatToolCall (tc : openai_compat.ToolCall) : ToolCall :=
  let fn : Option FunctionCall :=
    match tc.Function with
    | some f => some { Name := f.Name, Arguments := f.Arguments }
    | none => none
  { ID := tc.ID, Type_ := tc.Type_, Function := fn, Name := tc.Name, Arguments := tc.Arguments }

/-- Source `fromOpenAICompatToolCalls`. -/
def fromOpenAICompatToolCalls (toolCalls : List openai_compat.ToolCall) : List ToolCall :=
  toolCalls.foldl (fun out tc => out ++ [fromOpenAICompatToolCall tc]) []

/-- Source `fromOpenAICompatResponse`: the result pointer is never nil. -/
def fromOpenAICompatResponse (resp : Option openai_compat.LLMResponse) : Option LLMResponse :=
  match resp with
  | none => some LLMResponse.zero
  | some r =>
    let usage : Option UsageInfo :=
      match r.Usage with
      | some u => some { PromptTokens := u.PromptTokens
                         CompletionTokens := u.CompletionTokens
                         TotalTokens := u.TotalTokens }
      | none => none
    some { Content := r.Content
           ToolCalls := fromOpenAICompatToolCalls r.ToolCalls
           FinishReason := r.FinishReason
           Usage := usage }

/-- The invocation `HTTPProvider.Chat` makes of its delegate. -/
def HTTPProvider.delegateCall (ctx : Context) (messages : List Message)
    (tools : List ToolDefinition) (model : String) (options : GoMap) : openai_compat.ChatCall :=
  { ctx := ctx
    messages := toOpenAICompatMessages messages
    tools := toOpenAICompatTools tools
    model := model
    options := options }

/-- Source `HTTPProvider.Chat`. The last argument is the log of delegate
invocations made so far; the result is the Go result pair together with the
log after the call. -/
def HTTPProvider.Chat (p : HTTPProvider) (ctx : Context) (messages : List Message)
    (tools : List ToolDefinition) (model : String) (options : GoMap)
    (log : List openai_compat.ChatCall) :
    (Option LLMResponse × Option GoError) × List openai_compat.ChatCall :=
  let call := HTTPProvider.delegateCall ctx messages tools model options
  let (compatResp, err) := p.delegate call
  let log1 := log ++ [call]
  match err with
  | some e => ((none, some e), log1)
  | none => ((fromOpenAICompatResponse compatResp, none), log1)

/-- Source `NewHTTPProvider`. The first argument stands for the constructor
`openai_compat.NewProvider`, which is not in `http_provider.go`: it takes an API
key, an API base and a proxy URL and yields the delegate. The variadic `proxy`
parameter is the list of the proxy arguments given. -/
def NewHTTPProvider
    (NewProvider : String → String → String →
      openai_compat.ChatCall → Option openai_compat.LLMResponse × Option GoError)
    (apiKey apiBase : String) (proxy : List String) : HTTPProvider :=
  let proxyURL : String := if h : proxy.length > 0 then proxy[0] else ""
  { delegate := NewProvider apiKey apiBase proxyURL }

/-! ## Sample data -/

/-- A delegate constructor whose delegate fails every request with an error
that spells out the API key, API base and proxy URL it was built with. -/
def echoNewProvider (apiKey apiBase proxyURL : String) :
    openai_compat.ChatCall → Option openai_compat.LLMResponse × Option GoError :=
  fun _ => (none, some { msg := apiKey ++ " " ++ apiBase ++ " [" ++ proxyURL ++ "]" })

/-- A normalized tool call that has no `Function` part. -/
def bareToolCall : ToolCall :=
  { ID := "call_3"
    Type_ := "function"
    Function := none
    Name := "get_weather"
    Arguments := [("city", Value.str "SF")] }

/-- A codec tool call that has no `Function` part. -/
def bareCompatToolCall : openai_compat.ToolCall :=
  { ID := "call_4"
    Type_ := "function"
    Function := none
    Name := "get_time"
    Arguments := [("zone", Value.str "UTC")] }

/-- The codec tool call of the weather example with a chosen argument mapping:
function name `get_weather`, argument string `{"city":"SF"}`. -/
def weatherCall (arguments : GoMap) : openai_compat.ToolCall :=
  { ID := "call_1"
    Type_ := "function"
    Function := some { Name := "get_weather", Arguments := "\x7b\"city\":\"SF\"\x7d" }
    Name := "get_weather"
    Arguments := arguments }

/-- A codec response carrying the given tool calls. -/
def toolCallResponse (calls : List openai_compat.ToolCall) : openai_compat.LLMResponse :=
  { Content := ""
    ToolCalls := calls
    FinishReason := "tool_calls"
    Usage := some { PromptTokens := 10, CompletionTokens := 5, TotalTokens := 15 } }

/-- A codec tool call whose argument string is not JSON, with a chosen argument
mapping. -/
def malformedCall (arguments : GoMap) : openai_compat.ToolCall :=
  { ID := "call_2"
    Type_ := "function"
    Function := some { Name := "get_weather", Arguments := "\x7bbad" }
    Name := "get_weather"
    Arguments := arguments }

/-- A delegate that fails every request with an HTTP error. -/
def failingProvider : HTTPProvider :=
  { delegate := fun _ => (none, some { msg := "API request failed: Status: 400 Body: bad request" }) }

/-- A delegate that answers every request with a nil result and a nil error. -/
def silentProvider : HTTPProvider :=
  { delegate := fun _ => (none, none) }

/-- A delegate that answers every request with the weather tool call. -/
def weatherProvider : HTTPProvider :=
  { delegate := fun _ => (some (toolCallResponse [weatherCall [("city", Value.str "SF")]]), none) }

/-- A normalized user message. -/
def userMessage : Message :=
  { Role := "user", Content := "hi", ToolCalls := [], ToolCallID := "" }

/-- A normalized assistant message that carries one tool call. -/
def assistantMessage : Message :=
  { Role := "assistant"
    Content := ""
    ToolCalls := [{ ID := "call_1"
                    Type_ := "function"
                    Function := some { Name := "get_weather", Arguments := "\x7b\"city\":\"SF\"\x7d" }
                    Name := "get_weather"
                    Arguments := [("city", Value.str "SF")] }]
    ToolCallID := "" }

/-- A tool definition with a JSON-schema parameter spec. -/
def weatherTool : ToolDefinition :=
  { Type_ := "function"
    Function := { Name := "get_weather"
                  Description := "Look up the weather"
                  Parameters := [("type", Value.str "object"),
                                 ("properties", Value.object [("city", Value.object [("type", Value.str "string")])])] } }

/-! ## Loops as maps -/

theorem foldl_append_singleton {α β : Type} (f : α → β) (xs : List α) (acc : List β) :
    xs.foldl (fun out x => out ++ [f x]) acc = acc ++ xs.map f := by
  induction xs generalizing acc with
  | nil => simp
  | cons x rest ih => simp [List.foldl_cons, ih]

theorem toOpenAICompatToolCalls_eq_map (toolCalls : List ToolCall) :
    toOpenAICompatToolCalls toolCalls = toolCalls.map toOpenAICompatToolCall := by
  unfold toOpenAICompatToolCalls
  rw [foldl_append_singleton]
  simp

theorem fromOpenAICompatToolCalls_eq_map (toolCalls : List openai_compat.ToolCall) :
    fromOpenAICompatToolCalls toolCalls = toolCalls.map fromOpenAICompatToolCall := by
  unfold fromOpenAICompatToolCalls
  rw [foldl_append_singleton]
  simp

theorem toOpenAICompatMessages_eq_map (messages : List Message) :
    toOpenAICompatMessages messages
      = messages.map (fun msg => { Role := msg.Role
                                   Content := msg.Content
                                   ToolCalls := toOpenAICompatToolCalls msg.ToolCalls
                                   ToolCallID := msg.ToolCallID }) := by
  unfold toOpenAICompatMessages
  rw [foldl_append_singleton]
  simp

theorem toOpenAICompatTools_eq_map (tools : List ToolDefinition) :
    toOpenAICompatTools tools
      = tools.map (fun t => { Type_ := t.Type_
                              Function := { Name := t.Function.Name
                                            Description := t.Function.Description
                                            Parameters := t.Function.Parameters } }) := by
  unfold toOpenAICompatTools
  rw [foldl_append_singleton]
  simp

theorem fromOpenAICompatToolCall_toOpenAICompatToolCall (tc : ToolCall) :
    fromOpenAICompatToolCall (toOpenAICompatToolCall tc) = tc := by
  obtain ⟨id, ty, fn, name, args⟩ := tc
  cases fn <;> simp [fromOpenAICompatToolCall, toOpenAICompatToolCall]

theorem toOpenAICompatToolCall_fromOpenAICompatToolCall (tc : openai_compat.ToolCall) :
    toOpenAICompatToolCall (fromOpenAICompatToolCall tc) = tc := by
  obtain ⟨id, ty, fn, name, args⟩ := tc
  cases fn <;> simp [fromOpenAICompatToolCall, toOpenAICompatToolCall]

/-- The response conversion on a non-nil codec response, tool calls as a map. -/
theorem fromOpenAICompatResponse_some (r : openai_compat.LLMResponse) :
    fromOpenAICompatResponse (some r)
      = some { Content := r.Content
               ToolCalls := r.ToolCalls.map fromOpenAICompatToolCall
               FinishReason := r.FinishReason
               Usage := r.Usage.map (fun u => { PromptTokens := u.PromptTokens
                                                CompletionTokens := u.CompletionTokens
                                                TotalTokens := u.TotalTokens }) } := by
  simp only [fromOpenAICompatResponse, fromOpenAICompatToolCalls_eq_map]
  cases r.Usage <;> rfl

/-! ## Error propagation -/

/-- C1: when the delegate's Chat returns a non-nil error `e`, `HTTPProvider.Chat`
returns a nil response together with exactly the error `e`, whatever result the
delegate returned beside it. -/
theorem Chat_returns_delegate_error (p : HTTPProvider) (ctx : Context)
    (messages : List Message) (tools : List ToolDefinition) (model : String)
    (options : GoMap) (log : List openai_compat.ChatCall) (e : GoError)
    (h : (p.delegate { ctx := ctx
                       messages := toOpenAICompatMessages messages
                       tools := toOpenAICompatTools tools
                       model := model
                       options := options }).2 = some e) :
    (p.Chat ctx messages tools model options log).1 = (none, some e) := by
  simp only [HTTPProvider.Chat, HTTPProvider.delegateCall]
  rw [h]

theorem Chat_returns_delegate_error_witness :
    (failingProvider.delegate
        { ctx := { token := 0 }
          messages := toOpenAICompatMessages [userMessage]
          tools := toOpenAICompatTools []
          model := "gpt-4o"
          options := [] }).2
      = some { msg := "API request failed: Status: 400 Body: bad request" }
    ∧ (failingProvider.Chat { token := 0 } [userMessage] [] "gpt-4o" [] []).1
      = (none, some { msg := "API request failed: Status: 400 Body: bad request" }) :=
  ⟨rfl, Chat_returns_delegate_error failingProvider { token := 0 } [userMessage] [] "gpt-4o" [] []
    { msg := "API request failed: Status: 400 Body: bad request" } rfl⟩

/-! ## Tool-call arguments -/

/-- C2, as stated, fails: the codec tool call whose argument string is
`{"city":"SF"}` and whose own argument mapping is empty comes back with an
empty argument mapping, in which `city` is absent; the adapter does not decode
the string. -/
theorem arguments_string_not_decoded :
    (fromOpenAICompatResponse (some (toolCallResponse [weatherCall []]))).map
        (fun out => out.ToolCalls.map (fun t => (t.Function.map (fun f => f.Arguments), t.Arguments)))
      = some [(some "\x7b\"city\":\"SF\"\x7d", [])]
    ∧ (fromOpenAICompatResponse (some (toolCallResponse [weatherCall []]))).map
        (fun out => out.ToolCalls.map (fun t => t.Arguments.get "city"))
      = some [none]
    ∧ (fromOpenAICompatResponse (some (toolCallResponse [weatherCall []]))).map
        (fun out => out.ToolCalls.map (fun t => t.Arguments.get "city"))
      ≠ some [some (Value.str "SF")] := by
  refine ⟨rfl, rfl, ?_⟩
  rw [show (fromOpenAICompatResponse (some (toolCallResponse [weatherCall []]))).map
        (fun out => out.ToolCalls.map (fun t => t.Arguments.get "city")) = some [none] from rfl]
  simp

/-- C2, amended: the adapter performs no string-to-mapping conversion. For every
codec response and every tool call in it, whatever its argument string, the
normalized tool call at the same position has an argument mapping equal to the
codec tool call's own `Arguments` field, and a `Function.Arguments` string
equal to the codec's string. -/
theorem arguments_mapping_is_codec_mapping (r : openai_compat.LLMResponse) :
    ∃ out, fromOpenAICompatResponse (some r) = some out
      ∧ out.ToolCalls.length = r.ToolCalls.length
      ∧ ∀ (i : Nat) (tc : openai_compat.ToolCall), r.ToolCalls[i]? = some tc →
          ∃ t, out.ToolCalls[i]? = some t
            ∧ t.Arguments = tc.Arguments
            ∧ t.Function.map (fun f => f.Arguments) = tc.Function.map (fun f => f.Arguments) := by
  refine ⟨_, fromOpenAICompatResponse_some r, by simp, ?_⟩
  intro i tc h
  refine ⟨fromOpenAICompatToolCall tc, by simp [List.getElem?_map, h], rfl, ?_⟩
  cases hf : tc.Function <;> simp [fromOpenAICompatToolCall, hf]

theorem arguments_mapping_is_codec_mapping_witness :
    ∃ out, fromOpenAICompatResponse
          (some (toolCallResponse [weatherCall [("city", Value.str "SF")]])) = some out
      ∧ out.ToolCalls.length = 1
      ∧ ∃ t, out.ToolCalls[0]? = some t
          ∧ t.Arguments.get "city" = some (Value.str "SF")
          ∧ t.Function.map (fun f => f.Arguments) = some "\x7b\"city\":\"SF\"\x7d" := by
  obtain ⟨out, hout, hlen, hcalls⟩ :=
    arguments_mapping_is_codec_mapping (toolCallResponse [weatherCall [("city", Value.str "SF")]])
  obtain ⟨t, ht, hargs, hfn⟩ := hcalls 0 (weatherCall [("city", Value.str "SF")]) rfl
  refine ⟨out, hout, hlen, t, ht, ?_, ?_⟩
  · rw [hargs]; rfl
  · rw [hfn]; rfl

/-! ## Tool-call round trip -/

/-- C3: tool-call translation is a round trip in both directions. Converting a
list of normalized tool calls to the codec's shape and back gives the same
list, and converting a list of codec tool calls to the normalized shape and
back gives the same list (same length, same order, every field of every
element equal, `Function` absent in both or present with equal fields). -/
theorem toolCalls_roundtrip :
    (∀ l : List ToolCall, fromOpenAICompatToolCalls (toOpenAICompatToolCalls l) = l)
    ∧ (∀ w : List openai_compat.ToolCall,
        toOpenAICompatToolCalls (fromOpenAICompatToolCalls w) = w) := by
  constructor
  · intro l
    rw [toOpenAICompatToolCalls_eq_map, fromOpenAICompatToolCalls_eq_map, List.map_map]
    have hid : fromOpenAICompatToolCall ∘ toOpenAICompatToolCall = id :=
      funext fromOpenAICompatToolCall_toOpenAICompatToolCall
    rw [hid, List.map_id]
  · intro w
    rw [fromOpenAICompatToolCalls_eq_map, toOpenAICompatToolCalls_eq_map, List.map_map]
    have hid : toOpenAICompatToolCall ∘ fromOpenAICompatToolCall = id :=
      funext toOpenAICompatToolCall_fromOpenAICompatToolCall
    rw [hid, List.map_id]

/-! ## Response conversion -/

/-- C4: for every non-nil codec response `r`, the converted response has the
content and finish reason of `r`, and a tool-call list of the same length and
order in which the i-th element has the ID, Type, Name and argument mapping of
the i-th tool call of `r`; so a codec tool call named `get_weather` whose
mapping has `city` = `SF` comes back named `get_weather` with `city` = `SF`. -/
theorem fromOpenAICompatResponse_fields (r : openai_compat.LLMResponse) :
    ∃ out, fromOpenAICompatResponse (some r) = some out
      ∧ out.Content = r.Content
      ∧ out.FinishReason = r.FinishReason
      ∧ out.ToolCalls.length = r.ToolCalls.length
      ∧ (∀ (i : Nat) (tc : openai_compat.ToolCall), r.ToolCalls[i]? = some tc →
          ∃ t, out.ToolCalls[i]? = some t
            ∧ t.ID = tc.ID ∧ t.Type_ = tc.Type_ ∧ t.Name = tc.Name ∧ t.Arguments = tc.Arguments)
      ∧ (∀ (i : Nat) (tc : openai_compat.ToolCall), r.ToolCalls[i]? = some tc →
          tc.Name = "get_weather" → tc.Arguments.get "city" = some (Value.str "SF") →
          ∃ t, out.ToolCalls[i]? = some t
            ∧ t.Name = "get_weather" ∧ t.Arguments.get "city" = some (Value.str "SF")) := by
  refine ⟨_, fromOpenAICompatResponse_some r, rfl, rfl, by simp, ?_, ?_⟩
  · intro i tc h
    exact ⟨fromOpenAICompatToolCall tc, by simp [List.getElem?_map, h], rfl, rfl, rfl, rfl⟩
  · intro i tc h hname hcity
    exact ⟨fromOpenAICompatToolCall tc, by simp [List.getElem?_map, h], hname, hcity⟩

theorem fromOpenAICompatResponse_fields_witness :
    ∃ out, fromOpenAICompatResponse
          (some (toolCallResponse [weatherCall [("city", Value.str "SF")]])) = some out
      ∧ out.Content = "" ∧ out.FinishReason = "tool_calls" ∧ out.ToolCalls.length = 1
      ∧ ∃ t, out.ToolCalls[0]? = some t
          ∧ t.Name = "get_weather" ∧ t.Arguments.get "city" = some (Value.str "SF") := by
  obtain ⟨out, hout, hcontent, hfinish, hlen, _, hweather⟩ :=
    fromOpenAICompatResponse_fields (toolCallResponse [weatherCall [("city", Value.str "SF")]])
  exact ⟨out, hout, hcontent, hfinish, hlen,
    hweather 0 (weatherCall [("city", Value.str "SF")]) rfl rfl rfl⟩

/-- C5: on a nil codec result the conversion returns a non-nil response with
empty content, no tool calls, empty finish reason and nil usage; so when the
delegate returns a nil result and a nil error, `HTTPProvider.Chat` returns that
empty response and a nil error. -/
theorem nil_result_gives_empty_response (p : HTTPProvider) (ctx : Context)
    (messages : List Message) (tools : List ToolDefinition) (model : String)
    (options : GoMap) (log : List openai_compat.ChatCall)
    (h : p.delegate { ctx := ctx
                      messages := toOpenAICompatMessages messages
                      tools := toOpenAICompatTools tools
                      model := model
                      options := options } = (none, none)) :
    fromOpenAICompatResponse none
        = some { Content := "", ToolCalls := [], FinishReason := "", Usage := none }
    ∧ (p.Chat ctx messages tools model options log).1
        = (some { Content := "", ToolCalls := [], FinishReason := "", Usage := none }, none) := by
  refine ⟨rfl, ?_⟩
  have hres := congrArg Prod.fst h
  have herr := congrArg Prod.snd h
  simp only [HTTPProvider.Chat, HTTPProvider.delegateCall]
  rw [herr, hres]
  rfl

theorem nil_result_gives_empty_response_witness :
    fromOpenAICompatResponse none
        = some { Content := "", ToolCalls := [], FinishReason := "", Usage := none }
    ∧ (silentProvider.Chat { token := 0 } [userMessage] [weatherTool] "gpt-4o" [] []).1
        = (some { Content := "", ToolCalls := [], FinishReason := "", Usage := none }, none) :=
  nil_result_gives_empty_response silentProvider { token := 0 } [userMessage] [weatherTool]
    "gpt-4o" [] [] rfl

/-- C6: for every non-nil codec response `r`, the usage of the converted
response is nil exactly when `r.Usage` is nil, and when `r.Usage` is present
the prompt, completion and total token counters of the result are those of
`r.Usage`, each in its own field. -/
theorem fromOpenAICompatResponse_usage (r : openai_compat.LLMResponse) :
    ∃ out, fromOpenAICompatResponse (some r) = some out
      ∧ (out.Usage = none ↔ r.Usage = none)
      ∧ ∀ u : openai_compat.UsageInfo, r.Usage = some u →
          ∃ v, out.Usage = some v
            ∧ v.PromptTokens = u.PromptTokens
            ∧ v.CompletionTokens = u.CompletionTokens
            ∧ v.TotalTokens = u.TotalTokens := by
  refine ⟨_, fromOpenAICompatResponse_some r, ?_, ?_⟩
  · cases r.Usage <;> simp
  · intro u hu
    exact ⟨{ PromptTokens := u.PromptTokens
             CompletionTokens := u.CompletionTokens
             TotalTokens := u.TotalTokens }, by simp [hu], rfl, rfl, rfl⟩

theorem fromOpenAICompatResponse_usage_witness :
    ∃ out, fromOpenAICompatResponse (some (toolCallResponse [])) = some out
      ∧ ∃ v, out.Usage = some v
          ∧ v.PromptTokens = 10 ∧ v.CompletionTokens = 5 ∧ v.TotalTokens = 15 := by
  obtain ⟨out, hout, _, hu⟩ := fromOpenAICompatResponse_usage (toolCallResponse [])
  exact ⟨out, hout, hu { PromptTokens := 10, CompletionTokens := 5, TotalTokens := 15 } rfl⟩

/-! ## Request conversion -/

/-- C7: for every list of normalized messages, the converted list has the same
length and order: its i-th element has the role, content and tool-call id of
the i-th message, and tool calls equal to the conversion of that message's tool
calls. -/
theorem toOpenAICompatMessages_elementwise (ms : List Message) :
    (toOpenAICompatMessages ms).length = ms.length
    ∧ ∀ (i : Nat) (m : Message), ms[i]? = some m →
        ∃ c, (toOpenAICompatMessages ms)[i]? = some c
          ∧ c.Role = m.Role
          ∧ c.Content = m.Content
          ∧ c.ToolCallID = m.ToolCallID
          ∧ c.ToolCalls = toOpenAICompatToolCalls m.ToolCalls := by
  rw [toOpenAICompatMessages_eq_map]
  refine ⟨by simp, ?_⟩
  intro i m h
  exact ⟨{ Role := m.Role
           Content := m.Content
           ToolCalls := toOpenAICompatToolCalls m.ToolCalls
           ToolCallID := m.ToolCallID }, by simp [List.getElem?_map, h], rfl, rfl, rfl, rfl⟩

theorem toOpenAICompatMessages_elementwise_witness :
    (toOpenAICompatMessages [userMessage, assistantMessage]).length = 2
    ∧ ∃ c, (toOpenAICompatMessages [userMessage, assistantMessage])[1]? = some c
        ∧ c.Role = "assistant"
        ∧ c.Content = ""
        ∧ c.ToolCallID = ""
        ∧ c.ToolCalls = toOpenAICompatToolCalls assistantMessage.ToolCalls :=
  ⟨(toOpenAICompatMessages_elementwise [userMessage, assistantMessage]).1,
   (toOpenAICompatMessages_elementwise [userMessage, assistantMessage]).2 1 assistantMessage rfl⟩

/-- C8: tool definitions are passed through unmodified. For every list of tool
definitions, the converted list has the same length and order, and its i-th
element has the type, function name, description and parameter spec of the
i-th definition. -/
theorem toOpenAICompatTools_elementwise (ts : List ToolDefinition) :
    (toOpenAICompatTools ts).length = ts.length
    ∧ ∀ (i : Nat) (t : ToolDefinition), ts[i]? = some t →
        ∃ c, (toOpenAICompatTools ts)[i]? = some c
          ∧ c.Type_ = t.Type_
          ∧ c.Function.Name = t.Function.Name
          ∧ c.Function.Description = t.Function.Description
          ∧ c.Function.Parameters = t.Function.Parameters := by
  rw [toOpenAICompatTools_eq_map]
  refine ⟨by simp, ?_⟩
  intro i t h
  exact ⟨{ Type_ := t.Type_
           Function := { Name := t.Function.Name
                         Description := t.Function.Description
                         Parameters := t.Function.Parameters } },
    by simp [List.getElem?_map, h], rfl, rfl, rfl, rfl⟩

theorem toOpenAICompatTools_elementwise_witness :
    (toOpenAICompatTools [weatherTool]).length = 1
    ∧ ∃ c, (toOpenAICompatTools [weatherTool])[0]? = some c
        ∧ c.Type_ = "function"
        ∧ c.Function.Name = "get_weather"
        ∧ c.Function.Description = "Look up the weather"
        ∧ c.Function.Parameters = weatherTool.Function.Parameters :=
  ⟨(toOpenAICompatTools_elementwise [weatherTool]).1,
   (toOpenAICompatTools_elementwise [weatherTool]).2 0 weatherTool rfl⟩

/-! ## The call of the delegate -/

/-- C9: `HTTPProvider.Chat` performs no quirk logic. For every delegate and
every context, messages, tools, model and options, the call adds exactly one
delegate invocation to the log, made with the converted messages, the converted
tools and the caller's context, model string and options map unchanged; when
the delegate returns `(r, nil)` the result is the conversion of `r` and a nil
error. -/
theorem Chat_invokes_delegate_once (p : HTTPProvider) (ctx : Context)
    (messages : List Message) (tools : List ToolDefinition) (model : String)
    (options : GoMap) (log : List openai_compat.ChatCall) :
    (p.Chat ctx messages tools model options log).2
        = log ++ [{ ctx := ctx
                    messages := toOpenAICompatMessages messages
                    tools := toOpenAICompatTools tools
                    model := model
                    options := options }]
    ∧ ∀ r : Option openai_compat.LLMResponse,
        p.delegate { ctx := ctx
                     messages := toOpenAICompatMessages messages
                     tools := toOpenAICompatTools tools
                     model := model
                     options := options } = (r, none) →
        (p.Chat ctx messages tools model options log).1 = (fromOpenAICompatResponse r, none) := by
  constructor
  · simp only [HTTPProvider.Chat, HTTPProvider.delegateCall]
    split <;> rfl
  · intro r h
    have hres := congrArg Prod.fst h
    have herr := congrArg Prod.snd h
    simp only [HTTPProvider.Chat, HTTPProvider.delegateCall]
    rw [herr, hres]

theorem Chat_invokes_delegate_once_witness :
    (weatherProvider.Chat { token := 7 } [userMessage] [weatherTool] "moonshot/kimi-k2.5"
        [("temperature", Value.float (3 / 10)), ("max_tokens", Value.int 1234)] []).2
      = [{ ctx := { token := 7 }
           messages := toOpenAICompatMessages [userMessage]
           tools := toOpenAICompatTools [weatherTool]
           model := "moonshot/kimi-k2.5"
           options := [("temperature", Value.float (3 / 10)), ("max_tokens", Value.int 1234)] }]
    ∧ (weatherProvider.Chat { token := 7 } [userMessage] [weatherTool] "moonshot/kimi-k2.5"
        [("temperature", Value.float (3 / 10)), ("max_tokens", Value.int 1234)] []).1
      = (fromOpenAICompatResponse
          (some (toolCallResponse [weatherCall [("city", Value.str "SF")]])), none) :=
  ⟨(Chat_invokes_delegate_once weatherProvider { token := 7 } [userMessage] [weatherTool]
      "moonshot/kimi-k2.5"
      [("temperature", Value.float (3 / 10)), ("max_tokens", Value.int 1234)] []).1,
   (Chat_invokes_delegate_once weatherProvider { token := 7 } [userMessage] [weatherTool]
      "moonshot/kimi-k2.5"
      [("temperature", Value.float (3 / 10)), ("max_tokens", Value.int 1234)] []).2 _ rfl⟩

/-! ## Malformed argument strings -/

/-- C10, as stated, fails: the codec tool call whose argument string `{bad` is
not JSON and whose own argument mapping holds the raw string under `raw` comes
back with that same one-entry mapping, not with the empty mapping. -/
theorem malformed_arguments_mapping_not_emptied :
    (fromOpenAICompatResponse
        (some (toolCallResponse [malformedCall [("raw", Value.str "\x7bbad")]]))).map
        (fun out => out.ToolCalls.map (fun t => (t.Function.map (fun f => f.Arguments), t.Arguments)))
      = some [(some "\x7bbad", [("raw", Value.str "\x7bbad")])]
    ∧ (fromOpenAICompatResponse
        (some (toolCallResponse [malformedCall [("raw", Value.str "\x7bbad")]]))).map
        (fun out => out.ToolCalls.map (fun t => t.Arguments))
      ≠ some [[]] := by
  refine ⟨rfl, ?_⟩
  rw [show (fromOpenAICompatResponse
        (some (toolCallResponse [malformedCall [("raw", Value.str "\x7bbad")]]))).map
        (fun out => out.ToolCalls.map (fun t => t.Arguments))
      = some [[("raw", Value.str "\x7bbad")]] from rfl]
  simp

/-- C10, amended: no argument string aborts the response. For every codec
response and every tool call in it, whatever its argument string, the
conversion returns a response that holds that tool call at the same position
(same ID, Type, Name and argument string), and the normalized argument mapping
is the codec tool call's own mapping: empty exactly when the codec's is. -/
theorem malformed_arguments_keep_tool_call (r : openai_compat.LLMResponse) :
    ∃ out, fromOpenAICompatResponse (some r) = some out
      ∧ out.ToolCalls.length = r.ToolCalls.length
      ∧ ∀ (i : Nat) (tc : openai_compat.ToolCall), r.ToolCalls[i]? = some tc →
          ∃ t, out.ToolCalls[i]? = some t
            ∧ t.ID = tc.ID ∧ t.Type_ = tc.Type_ ∧ t.Name = tc.Name
            ∧ t.Function.map (fun f => (f.Name, f.Arguments))
                = tc.Function.map (fun f => (f.Name, f.Arguments))
            ∧ t.Arguments = tc.Arguments
            ∧ (t.Arguments = [] ↔ tc.Arguments = []) := by
  refine ⟨_, fromOpenAICompatResponse_some r, by simp, ?_⟩
  intro i tc h
  refine ⟨fromOpenAICompatToolCall tc, by simp [List.getElem?_map, h], rfl, rfl, rfl, ?_,
    rfl, Iff.rfl⟩
  cases hf : tc.Function <;> simp [fromOpenAICompatToolCall, hf]

theorem malformed_arguments_keep_tool_call_witness :
    ∃ out, fromOpenAICompatResponse (some (toolCallResponse [malformedCall []])) = some out
      ∧ out.ToolCalls.length = 1
      ∧ ∃ t, out.ToolCalls[0]? = some t
          ∧ t.ID = "call_2" ∧ t.Name = "get_weather"
          ∧ t.Function.map (fun f => (f.Name, f.Arguments)) = some ("get_weather", "\x7bbad")
          ∧ t.Arguments = [] := by
  obtain ⟨out, hout, hlen, hcalls⟩ :=
    malformed_arguments_keep_tool_call (toolCallResponse [malformedCall []])
  obtain ⟨t, ht, hid, _, hname, hfn, hargs, _⟩ := hcalls 0 (malformedCall []) rfl
  exact ⟨out, hout, hlen, t, ht, hid, hname, hfn, hargs⟩

/-! ## Construction -/

/-- C11: `NewHTTPProvider` builds its delegate from the API key and API base it
was given, unchanged, and from a proxy URL that is the empty string when no
proxy argument is given and the first proxy argument otherwise; proxy arguments
after the first do not change the provider built. -/
theorem NewHTTPProvider_delegate_arguments
    (NewProvider : String → String → String →
      openai_compat.ChatCall → Option openai_compat.LLMResponse × Option GoError)
    (apiKey apiBase : String) :
    (NewHTTPProvider NewProvider apiKey apiBase []).delegate = NewProvider apiKey apiBase ""
    ∧ ∀ (first : String) (rest : List String),
        (NewHTTPProvider NewProvider apiKey apiBase (first :: rest)).delegate
            = NewProvider apiKey apiBase first
        ∧ NewHTTPProvider NewProvider apiKey apiBase (first :: rest)
            = NewHTTPProvider NewProvider apiKey apiBase [first] := by
  refine ⟨?_, ?_⟩
  · simp [NewHTTPProvider]
  · intro first rest
    constructor <;> simp [NewHTTPProvider]

theorem NewHTTPProvider_delegate_arguments_witness :
    ((NewHTTPProvider echoNewProvider "key" "https://api.moonshot.cn/v1" []).delegate
        { ctx := { token := 0 }, messages := [], tools := [], model := "m", options := [] }).2
      = some { msg := "key https://api.moonshot.cn/v1 []" }
    ∧ ((NewHTTPProvider echoNewProvider "key" "https://api.moonshot.cn/v1"
          ["http://127.0.0.1:7890", "http://other:1"]).delegate
        { ctx := { token := 0 }, messages := [], tools := [], model := "m", options := [] }).2
      = some { msg := "key https://api.moonshot.cn/v1 [http://127.0.0.1:7890]" }
    ∧ NewHTTPProvider echoNewProvider "key" "https://api.moonshot.cn/v1"
          ["http://127.0.0.1:7890", "http://other:1"]
      = NewHTTPProvider echoNewProvider "key" "https://api.moonshot.cn/v1"
          ["http://127.0.0.1:7890"] := by
  have h := NewHTTPProvider_delegate_arguments echoNewProvider "key" "https://api.moonshot.cn/v1"
  refine ⟨?_, ?_, (h.2 "http://127.0.0.1:7890" ["http://other:1"]).2⟩
  · rw [h.1]; decide
  · rw [(h.2 "http://127.0.0.1:7890" ["http://other:1"]).1]; decide

/-! ## Tool calls without a function part -/

/-- C12: both tool-call conversions are total on tool calls that have no
`Function` part. Each conversion keeps the length of the list, and the tool
call it puts at a position has an absent `Function` exactly when the input's
`Function` at that position is absent, with the ID, Type, Name and argument
mapping of the input copied whether or not `Function` is present. -/
theorem toolCall_conversions_keep_absence :
    (∀ l : List ToolCall,
        (toOpenAICompatToolCalls l).length = l.length
        ∧ ∀ (i : Nat) (tc : ToolCall), l[i]? = some tc →
            ∃ c, (toOpenAICompatToolCalls l)[i]? = some c
              ∧ (c.Function = none ↔ tc.Function = none)
              ∧ c.ID = tc.ID ∧ c.Type_ = tc.Type_ ∧ c.Name = tc.Name
              ∧ c.Arguments = tc.Arguments)
    ∧ (∀ w : List openai_compat.ToolCall,
        (fromOpenAICompatToolCalls w).length = w.length
        ∧ ∀ (i : Nat) (tc : openai_compat.ToolCall), w[i]? = some tc →
            ∃ t, (fromOpenAICompatToolCalls w)[i]? = some t
              ∧ (t.Function = none ↔ tc.Function = none)
              ∧ t.ID = tc.ID ∧ t.Type_ = tc.Type_ ∧ t.Name = tc.Name
              ∧ t.Arguments = tc.Arguments) := by
  constructor
  · intro l
    rw [toOpenAICompatToolCalls_eq_map]
    refine ⟨by simp, ?_⟩
    intro i tc h
    refine ⟨toOpenAICompatToolCall tc, by simp [List.getElem?_map, h], ?_, rfl, rfl, rfl, rfl⟩
    cases hf : tc.Function <;> simp [toOpenAICompatToolCall, hf]
  · intro w
    rw [fromOpenAICompatToolCalls_eq_map]
    refine ⟨by simp, ?_⟩
    intro i tc h
    refine ⟨fromOpenAICompatToolCall tc, by simp [List.getElem?_map, h], ?_, rfl, rfl, rfl, rfl⟩
    cases hf : tc.Function <;> simp [fromOpenAICompatToolCall, hf]

theorem toolCall_conversions_keep_absence_witness :
    (∃ c, (toOpenAICompatToolCalls [bareToolCall])[0]? = some c
      ∧ c.Function = none
      ∧ c.ID = "call_3" ∧ c.Type_ = "function" ∧ c.Name = "get_weather"
      ∧ c.Arguments = [("city", Value.str "SF")])
    ∧ (∃ t, (fromOpenAICompatToolCalls [weatherCall [], bareCompatToolCall])[1]? = some t
      ∧ t.Function = none
      ∧ t.ID = "call_4" ∧ t.Type_ = "function" ∧ t.Name = "get_time"
      ∧ t.Arguments = [("zone", Value.str "UTC")]) := by
  constructor
  · obtain ⟨c, hc, hfn, hid, hty, hname, hargs⟩ :=
      (toolCall_conversions_keep_absence.1 [bareToolCall]).2 0 bareToolCall rfl
    exact ⟨c, hc, hfn.2 rfl, hid, hty, hname, hargs⟩
  · obtain ⟨t, ht, hfn, hid, hty, hname, hargs⟩ :=
      (toolCall_conversions_keep_absence.2 [weatherCall [], bareCompatToolCall]).2 1
        bareCompatToolCall rfl
    exact ⟨t, ht, hfn.2 rfl, hid, hty, hname, hargs⟩

end PicoClaw
